import Mathlib

/-!
Verification of the metrics engine of the rural-house design dashboard
(`src/demo.py`).  The computational core is the pure function
`calculate_metrics(w, d, ins, wwr, room_type, pv_r, pop, loc)` (lines
75-133 of `demo.py`); every quantity it computes is closed-form rational
arithmetic, so the embedding works over `ℚ`.  Python decimal literals
such as `0.35` denote exact rationals here, matching the real-number
reading of the formulas.

The sidebar offers four locations (Chengde, Shijiazhuang, Cangzhou,
Tianjin) and three room types (two-, three-, four-room); the code
branches on substrings of these strings, which the embedding renders as
enumerations.
-/

set_option autoImplicit false

/-- The four selectable construction sites (`location` selectbox,
`demo.py` lines 41-47).  The default selection (index 0) is Chengde. -/
inductive Location where
  | chengde
  | shijiazhuang
  | cangzhou
  | tianjin
deriving DecidableEq

/-- The three selectable room layouts (`target_room_type` selectbox,
`demo.py` lines 50-54).  The default selection (index 1) is threeRoom. -/
inductive RoomType where
  | twoRoom
  | threeRoom
  | fourRoom
deriving DecidableEq

/-- Climate (heating-load) factor, from the `if "承德" in loc` chain in
`calculate_metrics` (`demo.py` lines 80-88). -/
def climate_factor : Location → ℚ
  | .chengde => 1.30
  | .shijiazhuang => 1.05
  | .cangzhou => 1.0
  | .tianjin => 1.0

/-- Solar-yield factor, from the same location branch
(`demo.py` lines 80-88). -/
def solar_factor : Location → ℚ
  | .chengde => 1.05
  | .shijiazhuang => 1.0
  | .cangzhou => 1.0
  | .tianjin => 1.0

/-- Room-type cost/material multiplier, from the `if "两室" in room_type`
chain (`demo.py` lines 91-93). -/
def r_factor : RoomType → ℚ
  | .twoRoom => 1.0
  | .threeRoom => 1.15
  | .fourRoom => 1.35

/-- The argument tuple of `calculate_metrics`, in source order:
width `w`, depth `d`, insulation `ins`, window-to-wall ratio `wwr`,
room type, photovoltaic coverage `pv_r`, population `pop`, location. -/
structure DesignInputs where
  w : ℚ
  d : ℚ
  ins : ℚ
  wwr : ℚ
  room_type : RoomType
  pv_r : ℚ
  pop : ℚ
  loc : Location
deriving DecidableEq

/-- The dict returned by `calculate_metrics` (`demo.py` lines 126-133),
as a record with the same keys. -/
structure MetricsResult where
  eui : ℚ
  net_eui : ℚ
  cost : ℚ
  payback : ℚ
  shape : ℚ
  carbon_total : ℚ
  carbon_base : ℚ
  pv_gen : ℚ
  pmv : ℚ
  carbon_op : ℚ
  carbon_mat : ℚ
  carbon_mat_base : ℚ
  per_capita_carbon : ℚ
  climate_factor : ℚ
deriving DecidableEq

/-- `area = w * d` (`demo.py` line 76). -/
def area (i : DesignInputs) : ℚ := i.w * i.d

/-- `shape_coeff = (2 * (w + d)) / area` (`demo.py` line 77). -/
def shape_coeff (i : DesignInputs) : ℚ := (2 * (i.w + i.d)) / area i

/-- `base_eui_val = 140 * climate_factor` (`demo.py` line 96). -/
def base_eui_val (i : DesignInputs) : ℚ := 140 * climate_factor i.loc

/-- `design_eui = max(45, base_eui_val - (ins * 0.35) + (shape_coeff * 15)
+ abs(wwr - 0.45)*20)` (`demo.py` line 97). -/
def design_eui (i : DesignInputs) : ℚ :=
  max 45 (base_eui_val i - (i.ins * 0.35) + (shape_coeff i * 15) + |i.wwr - 0.45| * 20)

/-- `pv_gen = area * 0.5 * pv_r * 130 * solar_factor` (`demo.py` line 99). -/
def pv_gen (i : DesignInputs) : ℚ :=
  area i * 0.5 * i.pv_r * 130 * solar_factor i.loc

/-- `net_eui = max(0, design_eui - pv_gen/area)` (`demo.py` line 100). -/
def net_eui (i : DesignInputs) : ℚ :=
  max 0 (design_eui i - pv_gen i / area i)

/-- `grid_factor = 0.5810` (`demo.py` line 103). -/
def grid_factor : ℚ := 0.5810

/-- `life_span = 50` (`demo.py` line 104). -/
def life_span : ℚ := 50

/-- `base_op_c = (base_eui_val * area * grid_factor * life_span) / 1000`
(`demo.py` line 106). -/
def base_op_c (i : DesignInputs) : ℚ :=
  (base_eui_val i * area i * grid_factor * life_span) / 1000

/-- `design_op_c = (net_eui * area * grid_factor * life_span) / 1000`
(`demo.py` line 107). -/
def design_op_c (i : DesignInputs) : ℚ :=
  (net_eui i * area i * grid_factor * life_span) / 1000

/-- `base_mat_c = area * 0.35` (`demo.py` line 109). -/
def base_mat_c (i : DesignInputs) : ℚ := area i * 0.35

/-- `design_mat_c = area * (0.20 + ins * 0.0005) * r_factor`, then
`if pv_r > 0: design_mat_c += (area * 0.5 * pv_r * 0.08)`
(`demo.py` lines 110-111). -/
def design_mat_c (i : DesignInputs) : ℚ :=
  let m0 := area i * (0.20 + i.ins * 0.0005) * r_factor i.room_type
  if i.pv_r > 0 then m0 + (area i * 0.5 * i.pv_r * 0.08) else m0

/-- `base_total = base_op_c + base_mat_c` (`demo.py` line 113). -/
def base_total (i : DesignInputs) : ℚ := base_op_c i + base_mat_c i

/-- `design_total = design_op_c + design_mat_c` (`demo.py` line 114). -/
def design_total (i : DesignInputs) : ℚ := design_op_c i + design_mat_c i

/-- `base_cost = 10 + area * 0.10` (`demo.py` line 117). -/
def base_cost (i : DesignInputs) : ℚ := 10 + area i * 0.10

/-- `design_cost = (10 + area * 0.13 + ins * 0.05) * r_factor`, then
`if pv_r > 0: design_cost += (area * 0.5 * pv_r * 0.04)`
(`demo.py` lines 118-119). -/
def design_cost (i : DesignInputs) : ℚ :=
  let c0 := (10 + area i * 0.13 + i.ins * 0.05) * r_factor i.room_type
  if i.pv_r > 0 then c0 + (area i * 0.5 * i.pv_r * 0.04) else c0

/-- `saving_year = (base_eui_val - net_eui) * area * 0.55`
(`demo.py` line 121). -/
def saving_year (i : DesignInputs) : ℚ :=
  (base_eui_val i - net_eui i) * area i * 0.55

/-- `payback = (design_cost - base_cost) * 10000 / saving_year if
saving_year > 0 else 99` (`demo.py` line 122). -/
def payback (i : DesignInputs) : ℚ :=
  if saving_year i > 0 then (design_cost i - base_cost i) * 10000 / saving_year i else 99

/-- `pmv = -1.5 + (ins / 200) * 1.0 + (0.5 - abs(wwr-0.45))`
(`demo.py` line 124). -/
def pmv (i : DesignInputs) : ℚ :=
  -1.5 + (i.ins / 200) * 1.0 + (0.5 - |i.wwr - 0.45|)

/-- The full ``calculate_metrics`` function (`demo.py` lines 75-133),
returning the record of every key of the Python dict. -/
def calculate_metrics (i : DesignInputs) : MetricsResult where
  eui := design_eui i
  net_eui := net_eui i
  cost := design_cost i
  payback := payback i
  shape := shape_coeff i
  carbon_total := design_total i
  carbon_base := base_total i
  pv_gen := pv_gen i
  pmv := pmv i
  carbon_op := design_op_c i
  carbon_mat := design_mat_c i
  carbon_mat_base := base_mat_c i
  per_capita_carbon := design_total i / (i.pop * life_span)
  climate_factor := climate_factor i.loc

/-- The declared UI ranges of the numeric inputs (`demo.py` lines 57-66):
width and depth in [8,25], insulation in [50,200], window ratio in
[0.2,0.8], photovoltaic coverage in [0,0.8]. -/
def InRange (i : DesignInputs) : Prop :=
  8 ≤ i.w ∧ i.w ≤ 25 ∧ 8 ≤ i.d ∧ i.d ≤ 25 ∧
  50 ≤ i.ins ∧ i.ins ≤ 200 ∧
  0.2 ≤ i.wwr ∧ i.wwr ≤ 0.8 ∧
  0 ≤ i.pv_r ∧ i.pv_r ≤ 0.8

instance (i : DesignInputs) : Decidable (InRange i) := by
  unfold InRange; infer_instance

/-- The sidebar defaults of this variant (`demo.py` lines 41-66):
location Chengde (index 0), population 3, three-room layout (index 1),
width 13.0, depth 10.0, insulation 150, window ratio 0.45, photovoltaics
enabled at 50 %. -/
def default_inputs : DesignInputs where
  w := 13
  d := 10
  ins := 150
  wwr := 0.45
  room_type := RoomType.threeRoom
  pv_r := 0.5
  pop := 3
  loc := Location.chengde

/-! ### Helper lemmas -/

lemma solar_factor_pos (l : Location) : 0 < solar_factor l := by
  cases l <;> norm_num [solar_factor]

lemma area_pos {i : DesignInputs} (hw : 0 < i.w) (hd : 0 < i.d) : 0 < area i :=
  mul_pos hw hd

lemma shape_coeff_nonneg {i : DesignInputs} (hw : 0 < i.w) (hd : 0 < i.d) :
    0 ≤ shape_coeff i := by
  unfold shape_coeff
  exact div_nonneg (by linarith) (area_pos hw hd).le

/-- The design EUI is at least `140 · climate_factor − 70`: the insulation
deduction is capped at `200 × 0.35 = 70` and the shape and window terms
are nonnegative. -/
lemma design_eui_lb {i : DesignInputs} (hw : 0 < i.w) (hd : 0 < i.d)
    (hins : i.ins ≤ 200) : 140 * climate_factor i.loc - 70 ≤ design_eui i := by
  have h1 :
      base_eui_val i - (i.ins * 0.35) + (shape_coeff i * 15) + |i.wwr - 0.45| * 20 ≤
        design_eui i := le_max_right _ _
  have h2 := shape_coeff_nonneg hw hd
  have h3 := abs_nonneg (i.wwr - 0.45)
  unfold base_eui_val at h1
  linarith

lemma pv_gen_div_area {i : DesignInputs} (hw : i.w ≠ 0) (hd : i.d ≠ 0) :
    pv_gen i / area i = 65 * i.pv_r * solar_factor i.loc := by
  unfold pv_gen area
  field_simp
  ring

/-- Within the declared UI ranges, the photovoltaic deduction can never
drive the design EUI all the way to zero: the subtraction inside
`net_eui` stays strictly positive. -/
lemma design_sub_pv_pos {i : DesignInputs} (h : InRange i) :
    0 < design_eui i - pv_gen i / area i := by
  obtain ⟨hw1, hw2, hd1, hd2, hi1, hi2, hr1, hr2, hp1, hp2⟩ := h
  have hw : (0:ℚ) < i.w := by linarith
  have hd : (0:ℚ) < i.d := by linarith
  rw [pv_gen_div_area hw.ne' hd.ne']
  have lb := design_eui_lb hw hd hi2
  cases hloc : i.loc <;>
    · rw [hloc] at lb
      norm_num [climate_factor, solar_factor] at lb ⊢
      linarith

/-- Within the declared UI ranges the outer `max(0, ·)` of `net_eui` never
clips, so `net_eui = design_eui − 65 · pv_r · solar_factor`. -/
lemma net_eui_eq {i : DesignInputs} (h : InRange i) :
    net_eui i = design_eui i - 65 * i.pv_r * solar_factor i.loc := by
  have hw : (0:ℚ) < i.w := by have := h.1; linarith
  have hd : (0:ℚ) < i.d := by have := h.2.2.1; linarith
  unfold net_eui
  rw [max_eq_right (design_sub_pv_pos h).le, pv_gen_div_area hw.ne' hd.ne']

/-! ### Claim theorems -/

/-- C1: for every input, the returned payback period is the sentinel 99
when the computed annual savings is ≤ 0, and otherwise it equals
(design cost − baseline cost) × 10000 / annual savings exactly. -/
theorem c1_payback_sentinel (i : DesignInputs) :
    (saving_year i ≤ 0 → (calculate_metrics i).payback = 99) ∧
    (0 < saving_year i →
      (calculate_metrics i).payback =
        (design_cost i - base_cost i) * 10000 / saving_year i) := by
  constructor
  · intro h
    show payback i = 99
    unfold payback
    rw [if_neg (not_lt.mpr h)]
  · intro h
    show payback i = _
    unfold payback
    rw [if_pos h]

/-- C1 witness: at the sidebar defaults the annual savings is positive, so
the payback period is given by the division formula. -/
theorem c1_payback_sentinel_witness :
    0 < saving_year default_inputs ∧
      (calculate_metrics default_inputs).payback =
        (design_cost default_inputs - base_cost default_inputs) * 10000 /
          saving_year default_inputs := by
  have hpos : 0 < saving_year default_inputs := by
    norm_num [saving_year, base_eui_val, net_eui, design_eui, pv_gen, area,
      shape_coeff, climate_factor, solar_factor, default_inputs, abs]
  exact ⟨hpos, (c1_payback_sentinel default_inputs).2 hpos⟩

/-- C2: for every input within the declared UI ranges, the net EUI is
nonnegative and the design EUI is at least 45. -/
theorem c2_eui_bounds (i : DesignInputs) (h : InRange i) :
    0 ≤ (calculate_metrics i).net_eui ∧ 45 ≤ (calculate_metrics i).eui := by
  constructor
  · exact le_max_left 0 _
  · exact le_max_left 45 _

/-- C2 witness: the sidebar defaults are inside the declared ranges and
satisfy both bounds. -/
theorem c2_eui_bounds_witness :
    InRange default_inputs ∧
      0 ≤ (calculate_metrics default_inputs).net_eui ∧
        45 ≤ (calculate_metrics default_inputs).eui := by
  have hin : InRange default_inputs := by norm_num [InRange, default_inputs]
  exact ⟨hin, c2_eui_bounds default_inputs hin⟩

/-- C3: for inputs within the declared ranges that differ only in the
photovoltaic coverage ratio (both enabled), the larger coverage yields a
strictly smaller net EUI and a strictly larger generation, and the net
EUI stays nonnegative. -/
theorem c3_pv_monotone (i : DesignInputs) (p1 p2 : ℚ) (h : InRange i)
    (hp1 : 0 < p1) (h12 : p1 < p2) (hp2 : p2 ≤ 0.8) :
    (calculate_metrics { i with pv_r := p2 }).net_eui <
        (calculate_metrics { i with pv_r := p1 }).net_eui ∧
    (calculate_metrics { i with pv_r := p1 }).pv_gen <
        (calculate_metrics { i with pv_r := p2 }).pv_gen ∧
    0 ≤ (calculate_metrics { i with pv_r := p2 }).net_eui := by
  obtain ⟨hw1, hw2, hd1, hd2, hi1, hi2, hr1, hr2, -, -⟩ := h
  have h1 : InRange { i with pv_r := p1 } :=
    ⟨hw1, hw2, hd1, hd2, hi1, hi2, hr1, hr2, hp1.le, (h12.le.trans hp2)⟩
  have h2 : InRange { i with pv_r := p2 } :=
    ⟨hw1, hw2, hd1, hd2, hi1, hi2, hr1, hr2, (hp1.trans h12).le, hp2⟩
  have hsf : 0 < solar_factor i.loc := solar_factor_pos i.loc
  have harea : (0:ℚ) < area i := area_pos (by linarith) (by linarith)
  have e1 : net_eui { i with pv_r := p1 } =
      design_eui i - 65 * p1 * solar_factor i.loc := net_eui_eq h1
  have e2 : net_eui { i with pv_r := p2 } =
      design_eui i - 65 * p2 * solar_factor i.loc := net_eui_eq h2
  refine ⟨?_, ?_, le_max_left 0 _⟩
  · show net_eui { i with pv_r := p2 } < net_eui { i with pv_r := p1 }
    rw [e1, e2]
    nlinarith
  · show pv_gen { i with pv_r := p1 } < pv_gen { i with pv_r := p2 }
    show area i * 0.5 * p1 * 130 * solar_factor i.loc <
      area i * 0.5 * p2 * 130 * solar_factor i.loc
    nlinarith [mul_lt_mul_of_pos_right h12 (mul_pos harea hsf)]

/-- C3 witness: at the sidebar defaults, raising coverage from 50 % to
80 % strictly lowers the net EUI and strictly raises the generation. -/
theorem c3_pv_monotone_witness :
    InRange default_inputs ∧
      (calculate_metrics { default_inputs with pv_r := 0.8 }).net_eui <
          (calculate_metrics { default_inputs with pv_r := 0.5 }).net_eui ∧
      (calculate_metrics { default_inputs with pv_r := 0.5 }).pv_gen <
          (calculate_metrics { default_inputs with pv_r := 0.8 }).pv_gen ∧
      0 ≤ (calculate_metrics { default_inputs with pv_r := 0.8 }).net_eui := by
  have hin : InRange default_inputs := by norm_num [InRange, default_inputs]
  exact ⟨hin, c3_pv_monotone default_inputs 0.5 0.8 hin (by norm_num)
    (by norm_num) (by norm_num)⟩

/-- C4: for inputs that differ only in the insulation thickness (both in
the declared range), the larger insulation never increases the design
EUI, strictly decreases it while it is above the 45 floor, and once the
floor is reached the design EUI stays at 45. -/
theorem c4_insulation_monotone (i : DesignInputs) (a b : ℚ)
    (ha : 50 ≤ a) (hab : a < b) (hb : b ≤ 200) :
    (calculate_metrics { i with ins := b }).eui ≤
        (calculate_metrics { i with ins := a }).eui ∧
    (45 < (calculate_metrics { i with ins := a }).eui →
      (calculate_metrics { i with ins := b }).eui <
        (calculate_metrics { i with ins := a }).eui) ∧
    ((calculate_metrics { i with ins := a }).eui = 45 →
      (calculate_metrics { i with ins := b }).eui = 45) := by
  have key : ∀ x : ℚ, (calculate_metrics { i with ins := x }).eui =
      max 45 (base_eui_val i - (x * 0.35) + (shape_coeff i * 15) +
        |i.wwr - 0.45| * 20) := fun x => rfl
  rw [key a, key b]
  set fa := base_eui_val i - (a * 0.35) + (shape_coeff i * 15) + |i.wwr - 0.45| * 20 with hfa
  set fb := base_eui_val i - (b * 0.35) + (shape_coeff i * 15) + |i.wwr - 0.45| * 20 with hfb
  have hba : fb < fa := by rw [hfa, hfb]; linarith
  refine ⟨max_le_max le_rfl hba.le, ?_, ?_⟩
  · intro h45
    have hfa45 : 45 < fa := by
      rcases lt_max_iff.mp h45 with h | h
      · exact absurd h (lt_irrefl 45)
      · exact h
    calc max 45 fb < fa := max_lt hfa45 hba
      _ ≤ max 45 fa := le_max_right _ _
  · intro h45
    have hfa45 : fa ≤ 45 := by
      by_contra hc
      push_neg at hc
      rw [max_eq_right hc.le] at h45
      exact absurd h45 (ne_of_gt hc)
    exact max_eq_left (by linarith)

/-- C4 witness: at the sidebar defaults, raising the insulation from 150
to 200 mm strictly lowers the design EUI (which is above the floor). -/
theorem c4_insulation_monotone_witness :
    45 < (calculate_metrics { default_inputs with ins := 150 }).eui ∧
      (calculate_metrics { default_inputs with ins := 200 }).eui <
        (calculate_metrics { default_inputs with ins := 150 }).eui := by
  have h45 : 45 < (calculate_metrics { default_inputs with ins := 150 }).eui := by
    show (45:ℚ) < design_eui _
    norm_num [design_eui, base_eui_val, shape_coeff, area, climate_factor,
      default_inputs, abs]
  exact ⟨h45,
    (c4_insulation_monotone default_inputs 150 200 (by norm_num) (by norm_num)
      (by norm_num)).2.1 h45⟩

/-- The defaults with a unit-factor location: same geometry and technical
parameters as `default_inputs`, but sited in Cangzhou, whose climate and
solar factors are both 1. -/
def default_inputs_cangzhou : DesignInputs :=
  { default_inputs with loc := Location.cangzhou }

/-- C5 counterexample: at the actual sidebar defaults of this variant the
location is Chengde (solar factor 1.05), so the photovoltaic generation
is 130 × 0.5 × 0.5 × 130 × 1.05 = 4436.25 kWh, not the 4225 kWh the claim
states. -/
theorem c5_defaults_counterexample :
    (calculate_metrics default_inputs).pv_gen = 4436.25 ∧
      (4436.25 : ℚ) ≠ 4225 := by
  constructor
  · show pv_gen default_inputs = _
    norm_num [pv_gen, area, solar_factor, default_inputs]
  · norm_num

/-- C5 amended: with the default geometry and technical parameters
(width 13, depth 10, insulation 150, window ratio 0.45, photovoltaics at
50 %) but a location with unit climate and solar factors (Cangzhou),
`calculate_metrics` yields area = 130, shape coefficient = 23/65 ≈ 0.3538,
design EUI = 2413/26 ≈ 92.81, photovoltaic generation = 4225 kWh and
net EUI = 784/13 ≈ 60.31. -/
theorem c5_defaults_amended :
    area default_inputs_cangzhou = 130 ∧
    (calculate_metrics default_inputs_cangzhou).shape = 23 / 65 ∧
    (calculate_metrics default_inputs_cangzhou).eui = 2413 / 26 ∧
    (calculate_metrics default_inputs_cangzhou).pv_gen = 4225 ∧
    (calculate_metrics default_inputs_cangzhou).net_eui = 784 / 13 := by
  refine ⟨?_, ?_, ?_, ?_, ?_⟩
  · norm_num [area, default_inputs_cangzhou, default_inputs]
  · show shape_coeff _ = _
    norm_num [shape_coeff, area, default_inputs_cangzhou, default_inputs]
  · show design_eui _ = _
    norm_num [design_eui, base_eui_val, shape_coeff, area, climate_factor,
      default_inputs_cangzhou, default_inputs, abs]
  · show pv_gen _ = _
    norm_num [pv_gen, area, solar_factor, default_inputs_cangzhou, default_inputs]
  · show net_eui _ = _
    norm_num [net_eui, design_eui, base_eui_val, pv_gen, shape_coeff, area,
      climate_factor, solar_factor, default_inputs_cangzhou, default_inputs, abs]

/-- C6: whenever the photovoltaic coverage ratio is 0 (photovoltaics
disabled), the generation is exactly 0 and the net EUI equals the design
EUI exactly. -/
theorem c6_pv_disabled (i : DesignInputs) (h : i.pv_r = 0) :
    (calculate_metrics i).pv_gen = 0 ∧
      (calculate_metrics i).net_eui = (calculate_metrics i).eui := by
  have hg : pv_gen i = 0 := by unfold pv_gen; rw [h]; ring
  constructor
  · exact hg
  · show net_eui i = design_eui i
    unfold net_eui
    rw [hg, zero_div, sub_zero]
    exact max_eq_right (le_trans (by norm_num) (le_max_left 45 _))

/-- C6 witness: the defaults with photovoltaics switched off. -/
theorem c6_pv_disabled_witness :
    ({ default_inputs with pv_r := 0 } : DesignInputs).pv_r = 0 ∧
      (calculate_metrics { default_inputs with pv_r := 0 }).pv_gen = 0 ∧
      (calculate_metrics { default_inputs with pv_r := 0 }).net_eui =
        (calculate_metrics { default_inputs with pv_r := 0 }).eui :=
  ⟨rfl, c6_pv_disabled { default_inputs with pv_r := 0 } rfl⟩

/-- C7: for every input the comfort index equals
−1.5 + insulation/200 + (0.5 − |window ratio − 0.45|); in particular at
insulation 50 and window ratio 0.8 it equals −1.10 exactly. -/
theorem c7_pmv_formula :
    (∀ i : DesignInputs,
      (calculate_metrics i).pmv = -1.5 + i.ins / 200 + (0.5 - |i.wwr - 0.45|)) ∧
    (calculate_metrics { default_inputs with ins := 50, wwr := 0.8 }).pmv = -1.10 := by
  constructor
  · intro i
    show pmv i = _
    unfold pmv
    ring
  · show pmv _ = _
    norm_num [pmv, default_inputs, abs]

/-- C8: `calculate_metrics` is deterministic and pure — two calls with
identical arguments return identical records. -/
theorem c8_deterministic (i j : DesignInputs) (h : i = j) :
    calculate_metrics i = calculate_metrics j := by rw [h]

/-- C8 witness: instantiated at the sidebar defaults. -/
theorem c8_deterministic_witness :
    calculate_metrics default_inputs = calculate_metrics default_inputs :=
  c8_deterministic default_inputs default_inputs rfl

/-- C9: two inputs identical except for the occupant count (both positive)
produce results that differ at most in `per_capita_carbon`, which equals
total design carbon / (occupant count × 50); every other field is
unchanged. -/
theorem c9_pop_frame (i : DesignInputs) (p1 p2 : ℚ) (h1 : 0 < p1) (h2 : 0 < p2) :
    ((calculate_metrics { i with pop := p1 }).eui =
        (calculate_metrics { i with pop := p2 }).eui ∧
      (calculate_metrics { i with pop := p1 }).net_eui =
        (calculate_metrics { i with pop := p2 }).net_eui ∧
      (calculate_metrics { i with pop := p1 }).cost =
        (calculate_metrics { i with pop := p2 }).cost ∧
      (calculate_metrics { i with pop := p1 }).payback =
        (calculate_metrics { i with pop := p2 }).payback ∧
      (calculate_metrics { i with pop := p1 }).shape =
        (calculate_metrics { i with pop := p2 }).shape ∧
      (calculate_metrics { i with pop := p1 }).carbon_total =
        (calculate_metrics { i with pop := p2 }).carbon_total ∧
      (calculate_metrics { i with pop := p1 }).carbon_base =
        (calculate_metrics { i with pop := p2 }).carbon_base ∧
      (calculate_metrics { i with pop := p1 }).pv_gen =
        (calculate_metrics { i with pop := p2 }).pv_gen ∧
      (calculate_metrics { i with pop := p1 }).pmv =
        (calculate_metrics { i with pop := p2 }).pmv ∧
      (calculate_metrics { i with pop := p1 }).carbon_op =
        (calculate_metrics { i with pop := p2 }).carbon_op ∧
      (calculate_metrics { i with pop := p1 }).carbon_mat =
        (calculate_metrics { i with pop := p2 }).carbon_mat ∧
      (calculate_metrics { i with pop := p1 }).carbon_mat_base =
        (calculate_metrics { i with pop := p2 }).carbon_mat_base ∧
      (calculate_metrics { i with pop := p1 }).climate_factor =
        (calculate_metrics { i with pop := p2 }).climate_factor) ∧
    (calculate_metrics { i with pop := p1 }).per_capita_carbon =
      (calculate_metrics { i with pop := p1 }).carbon_total / (p1 * 50) ∧
    (calculate_metrics { i with pop := p2 }).per_capita_carbon =
      (calculate_metrics { i with pop := p2 }).carbon_total / (p2 * 50) :=
  ⟨⟨rfl, rfl, rfl, rfl, rfl, rfl, rfl, rfl, rfl, rfl, rfl, rfl, rfl⟩, rfl, rfl⟩

/-- C9 witness: instantiated at the sidebar defaults with occupant counts
3 and 5. -/
theorem c9_pop_frame_witness :
    (0:ℚ) < 3 ∧
      (calculate_metrics { default_inputs with pop := 3 }).per_capita_carbon =
        (calculate_metrics { default_inputs with pop := 3 }).carbon_total / (3 * 50) ∧
      (calculate_metrics { default_inputs with pop := 5 }).per_capita_carbon =
        (calculate_metrics { default_inputs with pop := 5 }).carbon_total / (5 * 50) :=
  ⟨by norm_num,
    (c9_pop_frame default_inputs 3 5 (by norm_num) (by norm_num)).2⟩

/-- The material-carbon formula of C10's wording: the photovoltaic term is
added unconditionally instead of under the `pv_r > 0` guard. -/
def design_mat_c_uncond (i : DesignInputs) : ℚ :=
  area i * (0.20 + i.ins * 0.0005) * r_factor i.room_type +
    area i * 0.5 * i.pv_r * 0.08

/-- The construction-cost formula of C10's wording: the photovoltaic term
is added unconditionally instead of under the `pv_r > 0` guard. -/
def design_cost_uncond (i : DesignInputs) : ℚ :=
  (10 + area i * 0.13 + i.ins * 0.05) * r_factor i.room_type +
    area i * 0.5 * i.pv_r * 0.04

/-- C10: whenever the photovoltaic coverage ratio is nonnegative, the
guarded conditional additions in the material-carbon and cost formulas
are equivalent to unconditional ones, because the added photovoltaic term
vanishes at coverage 0. -/
theorem c10_guard_refinement (i : DesignInputs) (h : 0 ≤ i.pv_r) :
    (calculate_metrics i).carbon_mat = design_mat_c_uncond i ∧
    (calculate_metrics i).cost = design_cost_uncond i := by
  rcases lt_or_eq_of_le h with hpos | heq
  · constructor
    · show design_mat_c i = _
      unfold design_mat_c design_mat_c_uncond
      rw [if_pos hpos]
    · show design_cost i = _
      unfold design_cost design_cost_uncond
      rw [if_pos hpos]
  · constructor
    · show design_mat_c i = _
      unfold design_mat_c design_mat_c_uncond
      rw [if_neg (by rw [← heq]; exact lt_irrefl 0), ← heq]
      ring
    · show design_cost i = _
      unfold design_cost design_cost_uncond
      rw [if_neg (by rw [← heq]; exact lt_irrefl 0), ← heq]
      ring

/-- C10 witness: instantiated at the sidebar defaults (coverage 0.5 ≥ 0). -/
theorem c10_guard_refinement_witness :
    (0:ℚ) ≤ default_inputs.pv_r ∧
      (calculate_metrics default_inputs).carbon_mat =
        design_mat_c_uncond default_inputs ∧
      (calculate_metrics default_inputs).cost = design_cost_uncond default_inputs := by
  have h : (0:ℚ) ≤ default_inputs.pv_r := by norm_num [default_inputs]
  exact ⟨h, c10_guard_refinement default_inputs h⟩
